import Mathlib

/-!
Shallow embedding of the "turnos" (interval-scheduling) core of the
Cinema Management API (backendApisCorporacionLaSirena).

Sources embedded:
* `src/utils/turnoValidations.ts` — `validateTurnoDuration`,
  `validateTurnoOverlap` (the four-case Prisma `OR` where-clause).
* `src/controllers/turnosController.ts` — `createTurno`, `updateTurno`,
  `deleteTurno`, `createMultipleTurnos` / `processTurnoItem`.
* `prisma/migrations/.../migration.sql` — the `turnos_no_overlap_exclusion`
  exclusion constraint `EXCLUDE USING GIST (sala WITH =, tstzrange(inicio, fin) WITH &&)`
  (note: the migration has no `WHERE` filter, so it ranges over all rows).

Modelling conventions:
* JavaScript `Date` values are integers (milliseconds); an Invalid Date
  (`isNaN(d.getTime())`) is `Option.none`, a valid one `Option.some t`.
* The ambient clock read (`new Date()` inside `validateTurnoDuration`,
  `deleteTurno`, ...) is passed explicitly as an `ahora : Int` argument.
* The Prisma store is a list of rows plus an id counter; `prisma.turno.create`
  and `prisma.turno.update` check the exclusion constraint of the migration
  and fail with an exclusion violation exactly when it would be violated.
* Fields irrelevant to scheduling (precio, idioma, formato, aforo, audit
  columns other than `eliminadoEn`) are omitted; the zod middleware
  (`src/middleware/validation.ts`) strips unknown body keys, so request
  bodies are modelled with exactly the schema fields the controllers read.
-/

namespace LaSirena

/-- Turno lifecycle status (`estado` enum of the Prisma schema and the zod
schemas: `ACTIVO`, `INACTIVO`, `CANCELADO`). -/
inductive Estado where
  | ACTIVO
  | INACTIVO
  | CANCELADO
  deriving DecidableEq, Repr

/-- The parent content item (`pelicula`): only the fields the turno pipeline
reads (id, `duracionMin`, soft-delete marker). -/
structure Pelicula where
  id : Nat
  duracionMin : Int
  eliminadoEn : Option Int
  deriving DecidableEq, Repr

/-- A stored interval row of the `turnos` table: the scheduling-relevant
columns of the Prisma model. -/
structure Turno where
  id : Nat
  peliculaId : Nat
  sala : String
  inicio : Int
  fin : Int
  estado : Estado
  eliminadoEn : Option Int
  deriving DecidableEq, Repr

/-- The database state: the `peliculas` and `turnos` tables plus the id
sequence for newly created turnos. -/
structure State where
  peliculas : List Pelicula
  turnos : List Turno
  nextId : Nat
  deriving DecidableEq, Repr

/-- Result of `validateTurnoDuration` (`src/utils/turnoValidations.ts`,
lines 13-73): one constructor per `return` site, in source order; `tooShort`
carries the two numbers interpolated into its message. -/
inductive DurationResult where
  | invalidDates
  | invalidRange
  | inThePast
  | tooShort (duracionTurnoMin duracionMinimaRequerida : Int)
  | tooLong
  | ok
  deriving DecidableEq, Repr

/-- The `valido` field of the TS result object: `true` only at the final
`return { valido: true }`. -/
def DurationResult.valido : DurationResult → Bool
  | .ok => true
  | _ => false

/-- `validateTurnoDuration(inicio, fin, duracionPeliculaMin)` from
`src/utils/turnoValidations.ts` lines 13-73.  The TS function reads the
clock itself (`const ahora = new Date()`); that ambient read is the explicit
`ahora` argument here.  Checks in source order: invalid dates, `fin <= inicio`,
`inicio < ahora`, then `duracionTurnoMin = Math.floor((fin - inicio)/60000)`
against `duracionPeliculaMin + 15` (minimum) and `240` (maximum). -/
def validateTurnoDuration (inicio fin : Option Int) (duracionPeliculaMin : Int)
    (ahora : Int) : DurationResult :=
  match inicio, fin with
  | none, _ => .invalidDates
  | some _, none => .invalidDates
  | some i, some f =>
    if f ≤ i then .invalidRange
    else if i < ahora then .inThePast
    else
      let duracionTurnoMin := (f - i) / 60000
      let duracionMinimaRequerida := duracionPeliculaMin + 15
      if duracionTurnoMin < duracionMinimaRequerida then
        .tooShort duracionTurnoMin duracionMinimaRequerida
      else if duracionTurnoMin > 240 then .tooLong
      else .ok

/-- The four-case `OR` of the Prisma where-clause in `validateTurnoOverlap`
(`src/utils/turnoValidations.ts` lines 97-127), applied to an existing row
`[tInicio, tFin)` against the candidate `[inicio, fin)`:
case 1 starts-during, case 2 ends-during, case 3 contained, case 4 contains. -/
def fourCaseOverlap (tInicio tFin inicio fin : Int) : Bool :=
  (decide (tInicio ≤ inicio) && decide (tFin > inicio)) ||
  (decide (tInicio < fin) && decide (tFin ≥ fin)) ||
  (decide (tInicio ≥ inicio) && decide (tFin ≤ fin)) ||
  (decide (tInicio ≤ inicio) && decide (tFin ≥ fin))

/-- The single half-open-interval intersection predicate, written from the
spec's words (§4.2: ranges `[s1,e1)` and `[s2,e2)` overlap iff
`s1 < e2 AND s2 < e1`).  Used only to compare against `fourCaseOverlap`. -/
def overlapSpec (s1 e1 s2 e2 : Int) : Prop := s1 < e2 ∧ s2 < e1

/-- The full row filter of the `validateTurnoOverlap` query: same `sala`,
`estado IN ['ACTIVO','INACTIVO']` (comment in source: "No incluir CANCELADO"),
`eliminadoEn: null`, the four-case overlap disjunction, and
`id: { not: turnoIdExcluir }` when an exclusion id is given. -/
def overlapWhere (sala : String) (inicio fin : Int) (turnoIdExcluir : Option Nat)
    (t : Turno) : Bool :=
  decide (t.sala = sala) &&
  (decide (t.estado = Estado.ACTIVO) || decide (t.estado = Estado.INACTIVO)) &&
  decide (t.eliminadoEn = none) &&
  fourCaseOverlap t.inicio t.fin inicio fin &&
  (match turnoIdExcluir with
   | none => true
   | some x => decide (¬ t.id = x))

/-- `validateTurnoOverlap(sala, inicio, fin, turnoIdExcluir?)`: the
`prisma.turno.findMany` of `src/utils/turnoValidations.ts` lines 83-167,
returning the conflicting rows (`turnosSolapados`); the TS result is
`valido` iff this list is empty. -/
def validateTurnoOverlap (turnos : List Turno) (sala : String) (inicio fin : Int)
    (turnoIdExcluir : Option Nat) : List Turno :=
  turnos.filter (overlapWhere sala inicio fin turnoIdExcluir)

/-- Intersection test of two `tstzrange(inicio, fin)` half-open ranges, the
`&&` operator used by the `turnos_no_overlap_exclusion` constraint: the
ranges share a point iff both are nonempty and each starts before the other
ends (an empty range intersects nothing). -/
def tstzrangeIntersects (s1 e1 s2 e2 : Int) : Bool :=
  decide (s1 < e2 ∧ s2 < e1 ∧ s1 < e1 ∧ s2 < e2)

/-- The `turnos_no_overlap_exclusion` constraint of the migration
(`EXCLUDE USING GIST (sala WITH =, tstzrange(inicio, fin) WITH &&)`):
a row may be written iff no other row of the table has the same `sala` and
an intersecting range.  The migration carries no `WHERE` clause, so the
check ranges over every row, whatever its `estado` or `eliminadoEn`. -/
def exclusionAllows (t : Turno) (rows : List Turno) : Bool :=
  rows.all (fun o => !(decide (o.sala = t.sala) &&
    tstzrangeIntersects t.inicio t.fin o.inicio o.fin))

/-- A storage-level failure: the only named one the controllers treat
specially is the exclusion-constraint violation. -/
inductive DbError where
  | exclusionViolation
  deriving DecidableEq, Repr

/-- Data handed to `prisma.turno.create` by the controllers: the scheduling
columns plus `eliminadoEn`, which is `null` when absent from the `data`
object (as in `createTurno`) but caller-controlled on the bulk path, where
the raw item is spread into `data`. -/
structure TurnoData where
  peliculaId : Nat
  sala : String
  inicio : Int
  fin : Int
  estado : Estado
  eliminadoEn : Option Int
  deriving DecidableEq, Repr

/-- `prisma.turno.create`: assigns the next id and commits only if the
exclusion constraint admits the new row against every existing row. -/
def dbCreateTurno (s : State) (d : TurnoData) : Except DbError (Turno × State) :=
  let t : Turno :=
    { id := s.nextId, peliculaId := d.peliculaId, sala := d.sala,
      inicio := d.inicio, fin := d.fin, estado := d.estado, eliminadoEn := d.eliminadoEn }
  if exclusionAllows t s.turnos then
    .ok (t, { s with turnos := t :: s.turnos, nextId := s.nextId + 1 })
  else .error .exclusionViolation

/-- `prisma.turno.update({ where: { id }, data })`: replaces the row with the
given id by `t'` and commits only if the exclusion constraint admits `t'`
against every other row. -/
def dbUpdateTurno (s : State) (id : Nat) (t' : Turno) : Except DbError State :=
  let others := s.turnos.filter (fun o => decide (¬ o.id = id))
  if exclusionAllows t' others then
    .ok { s with turnos := t' :: others }
  else .error .exclusionViolation

/-- An error response as produced by `createError(statusCode, message, code)`
(`src/middleware/errorHandler.ts`); the machine-readable part is the status
and the code string. -/
structure ApiError where
  statusCode : Nat
  code : String
  deriving DecidableEq, Repr

/-- `prisma.pelicula.findFirst({ where: { id, eliminadoEn: null } })`, the
parent lookup of `createTurno` and `processTurnoItem`. -/
def findPelicula (s : State) (peliculaId : Nat) : Option Pelicula :=
  s.peliculas.find? (fun p => decide (p.id = peliculaId) && decide (p.eliminadoEn = none))

/-- `prisma.turno.findFirst({ where: { id, eliminadoEn: null } })`, the row
lookup of `updateTurno` and `deleteTurno`. -/
def findTurnoVivo (s : State) (id : Nat) : Option Turno :=
  s.turnos.find? (fun t => decide (t.id = id) && decide (t.eliminadoEn = none))

/-- Request body of `POST /api/turnos` after the zod `turnoSchema` middleware:
`inicio` is guaranteed a valid date by the schema's `refine`; `fin` may be
sent by the caller but is stripped by zod and, in any case, never read by
`createTurno` (the controller destructures only the listed fields). -/
structure CreateTurnoBody where
  peliculaId : Nat
  sala : String
  inicio : Int
  fin : Option Int
  estado : Option Estado
  deriving DecidableEq, Repr

/-- `createTurno` (`src/controllers/turnosController.ts` lines 143-220):
parent lookup (404), `fin` computed as `inicio + (duracionMin + 15) minutes`,
duration validation (400 `INVALID_DURATION`), overlap pre-check
(409 `SCHEDULE_CONFLICT`), then the insert; the catch block maps an
exclusion-constraint violation (message naming `turnos_no_overlap_exclusion`)
to the same 409 `SCHEDULE_CONFLICT`. -/
def createTurno (s : State) (body : CreateTurnoBody) (ahora : Int) :
    Except ApiError (Turno × State) :=
  match findPelicula s body.peliculaId with
  | none => .error { statusCode := 404, code := "PELICULA_NOT_FOUND" }
  | some pelicula =>
    let inicioDate := body.inicio
    let finDate := inicioDate + (pelicula.duracionMin + 15) * 60000
    if (validateTurnoDuration (some inicioDate) (some finDate)
        pelicula.duracionMin ahora).valido then
      if (validateTurnoOverlap s.turnos body.sala inicioDate finDate none).isEmpty then
        -- the `data` object of `createTurno` lists no `eliminadoEn`: null default
        match dbCreateTurno s
          { peliculaId := body.peliculaId, sala := body.sala, inicio := inicioDate,
            fin := finDate, estado := body.estado.getD .ACTIVO, eliminadoEn := none } with
        | .ok r => .ok r
        | .error _ => .error { statusCode := 409, code := "SCHEDULE_CONFLICT" }
      else .error { statusCode := 409, code := "SCHEDULE_CONFLICT" }
    else .error { statusCode := 400, code := "INVALID_DURATION" }

/-- Request body of `PUT /api/turnos/:id` after the zod `turnoUpdateSchema`
middleware: every field optional; `inicio`/`fin` are `z.string().transform(new Date)`
without a validity refine, so a supplied value may still be an invalid date
(`some none`).  `eliminadoEn` is not part of the schema and zod replaces
`req.body` by the parsed object, so it can never appear in the patch. -/
structure UpdateTurnoBody where
  sala : Option String
  inicio : Option (Option Int)
  fin : Option (Option Int)
  estado : Option Estado
  deriving DecidableEq, Repr

/-- The date-defaulting of `updateTurno` lines 248-249
(`updateData.inicio ? new Date(updateData.inicio) : turnoExistente.inicio`):
the supplied date when present (possibly invalid), else the existing
column's value. -/
def effectiveDate (supplied : Option (Option Int)) (existing : Int) : Option Int :=
  match supplied with
  | some d => d
  | none => some existing

/-- `updateTurno` (`src/controllers/turnosController.ts` lines 226-296):
row lookup (404); only when the patch carries `inicio` or `fin` does it
validate duration (against the existing row's pelicula) and overlap
(excluding the row's own id, against `updateData.sala || existing.sala`);
otherwise the patch goes straight to `prisma.turno.update`.  The catch block
maps nothing specially, so a constraint violation surfaces through
`errorHandler` as 500 `INTERNAL_SERVER_ERROR`. -/
def updateTurno (s : State) (id : Nat) (body : UpdateTurnoBody) (ahora : Int) :
    Except ApiError (Turno × State) :=
  match findTurnoVivo s id with
  | none => .error { statusCode := 404, code := "TURNO_NOT_FOUND" }
  | some turnoExistente =>
    if body.inicio.isSome || body.fin.isSome then
      match s.peliculas.find? (fun p => decide (p.id = turnoExistente.peliculaId)) with
      | none => .error { statusCode := 500, code := "INTERNAL_SERVER_ERROR" }
      | some pelicula =>
        let inicioDate : Option Int := effectiveDate body.inicio turnoExistente.inicio
        let finDate : Option Int := effectiveDate body.fin turnoExistente.fin
        if (validateTurnoDuration inicioDate finDate pelicula.duracionMin ahora).valido then
          match inicioDate, finDate with
          | some i, some f =>
            let sala := body.sala.getD turnoExistente.sala
            if (validateTurnoOverlap s.turnos sala i f (some id)).isEmpty then
              let t' : Turno :=
                { turnoExistente with
                  sala := sala, inicio := i, fin := f,
                  estado := body.estado.getD turnoExistente.estado }
              match dbUpdateTurno s id t' with
              | .ok s' => .ok (t', s')
              | .error _ => .error { statusCode := 500, code := "INTERNAL_SERVER_ERROR" }
            else .error { statusCode := 409, code := "SCHEDULE_CONFLICT" }
          -- unreachable: `valido` rules out invalid dates
          | _, _ => .error { statusCode := 400, code := "INVALID_DURATION" }
        else .error { statusCode := 400, code := "INVALID_DURATION" }
    else
      let t' : Turno :=
        { turnoExistente with
          sala := body.sala.getD turnoExistente.sala,
          estado := body.estado.getD turnoExistente.estado }
      match dbUpdateTurno s id t' with
      | .ok s' => .ok (t', s')
      | .error _ => .error { statusCode := 500, code := "INTERNAL_SERVER_ERROR" }

/-- `deleteTurno` (`src/controllers/turnosController.ts` lines 302-335):
row lookup (404), then one `prisma.turno.update` setting both
`eliminadoEn: new Date()` and `estado: 'CANCELADO'`. -/
def deleteTurno (s : State) (id : Nat) (ahora : Int) : Except ApiError State :=
  match findTurnoVivo s id with
  | none => .error { statusCode := 404, code := "TURNO_NOT_FOUND" }
  | some turno =>
    match dbUpdateTurno s id
      ({ turno with eliminadoEn := some ahora, estado := Estado.CANCELADO }) with
    | .ok s' => .ok s'
    | .error _ => .error { statusCode := 500, code := "INTERNAL_SERVER_ERROR" }

/-- One item of the `POST /api/turnos/bulk` body.  The bulk route carries no
zod middleware, so `inicio`/`fin` may be invalid dates (`none`); the batch
uses the caller's `fin` directly.  Moreover `processTurnoItem` spreads the
raw item into `prisma.turno.create` (`data: { ...turnoData, ... }`), so any
Turno column the caller sends reaches the insert: the lifecycle-relevant one,
`eliminadoEn`, is modelled here (`POST /api/peliculas/:id/turnos:bulkCreate`
spreads raw items into `createMany` the same way); the remaining forwarded
columns (precio, idioma, formato, aforo, audit fields) play no part in
scheduling, and row ids stay database-generated. -/
structure BatchTurnoItem where
  peliculaId : Nat
  sala : String
  inicio : Option Int
  fin : Option Int
  estado : Option Estado
  eliminadoEn : Option Int
  deriving DecidableEq, Repr

/-- The reason recorded for a failed batch item: one constructor per
`errores.push` site of `processTurnoItem`. -/
inductive ItemErrorKind where
  | peliculaNotFound
  | invalidDuration (r : DurationResult)
  | scheduleConflictPrecheck (turnosSolapados : List Turno)
  | scheduleConflictDb
  deriving DecidableEq, Repr

/-- An entry of the `errores` array: the item's index and its reason. -/
structure ItemError where
  index : Nat
  error : ItemErrorKind
  deriving DecidableEq, Repr

/-- The accumulator of the bulk loop: current store plus the `turnosCreados`
and `errores` arrays, in push order. -/
structure BatchAcc where
  state : State
  turnosCreados : List Turno
  errores : List ItemError
  deriving DecidableEq, Repr

/-- `processTurnoItem` (`src/controllers/turnosController.ts` lines 357-395):
parent lookup, duration validation (on the caller's `inicio`/`fin`), overlap
pre-check, then the insert; every failure pushes exactly one record with the
item's index, a success pushes the created row. -/
def processTurnoItem (ahora : Int) (acc : BatchAcc) (turnoData : BatchTurnoItem)
    (index : Nat) : BatchAcc :=
  match findPelicula acc.state turnoData.peliculaId with
  | none => { acc with errores := acc.errores ++ [⟨index, .peliculaNotFound⟩] }
  | some pelicula =>
    let dr := validateTurnoDuration turnoData.inicio turnoData.fin
      pelicula.duracionMin ahora
    if dr.valido then
      match turnoData.inicio, turnoData.fin with
      | some i, some f =>
        let conflictos := validateTurnoOverlap acc.state.turnos turnoData.sala i f none
        if conflictos.isEmpty then
          -- `data: { ...turnoData, inicio, fin, estado }`: the spread forwards
          -- the caller's `eliminadoEn` on this unvalidated route
          match dbCreateTurno acc.state
            { peliculaId := turnoData.peliculaId, sala := turnoData.sala,
              inicio := i, fin := f, estado := turnoData.estado.getD .ACTIVO,
              eliminadoEn := turnoData.eliminadoEn } with
          | .ok (t, s') =>
            { acc with state := s', turnosCreados := acc.turnosCreados ++ [t] }
          | .error _ =>
            { acc with errores := acc.errores ++ [⟨index, .scheduleConflictDb⟩] }
        else
          { acc with errores := acc.errores ++ [⟨index, .scheduleConflictPrecheck conflictos⟩] }
      -- unreachable: `valido` rules out invalid dates
      | _, _ => { acc with errores := acc.errores ++ [⟨index, .invalidDuration dr⟩] }
    else { acc with errores := acc.errores ++ [⟨index, .invalidDuration dr⟩] }

/-- The sequential `for` loop of `createMultipleTurnos`: items processed one
by one, in input order, each seeing the store as left by its predecessors. -/
def runBatchAux (ahora : Int) : BatchAcc → List BatchTurnoItem → Nat → BatchAcc
  | acc, [], _ => acc
  | acc, it :: rest, i => runBatchAux ahora (processTurnoItem ahora acc it i) rest (i + 1)

/-- `createMultipleTurnos` (`src/controllers/turnosController.ts` lines
341-424): rejects an empty array (`INVALID_INPUT`) and more than 50 items
(`LIMIT_EXCEEDED`), then runs the sequential loop. -/
def createMultipleTurnos (s : State) (turnos : List BatchTurnoItem) (ahora : Int) :
    Except ApiError BatchAcc :=
  if turnos.length = 0 then .error { statusCode := 400, code := "INVALID_INPUT" }
  else if turnos.length > 50 then .error { statusCode := 400, code := "LIMIT_EXCEEDED" }
  else .ok (runBatchAux ahora ⟨s, [], []⟩ turnos 0)

/-- States reachable through the turno API from an empty `turnos` table:
any sequence of creates, updates, soft deletes and bulk creates, at any clock
instants, interleaved with arbitrary pelicula-table changes (the pelicula
endpoints never touch `turnos`).  Failed operations do not change the state. -/
inductive Reach : State → Prop where
  | init (peliculas : List Pelicula) :
      Reach { peliculas := peliculas, turnos := [], nextId := 0 }
  | peliculasStep (s : State) (ps : List Pelicula) :
      Reach s → Reach { s with peliculas := ps }
  | createStep (s : State) (body : CreateTurnoBody) (ahora : Int) (t : Turno)
      (s' : State) : Reach s → createTurno s body ahora = .ok (t, s') → Reach s'
  | updateStep (s : State) (id : Nat) (body : UpdateTurnoBody) (ahora : Int)
      (t : Turno) (s' : State) :
      Reach s → updateTurno s id body ahora = .ok (t, s') → Reach s'
  | deleteStep (s : State) (id : Nat) (ahora : Int) (s' : State) :
      Reach s → deleteTurno s id ahora = .ok s' → Reach s'
  | batchStep (s : State) (items : List BatchTurnoItem) (ahora : Int)
      (r : BatchAcc) :
      Reach s → createMultipleTurnos s items ahora = .ok r → Reach r.state

/-- States reachable from a given state through any further sequence of the
same operations as `Reach` (reflexive: the empty sequence counts). -/
inductive ReachFrom : State → State → Prop where
  | refl (s : State) : ReachFrom s s
  | peliculasStep (s0 s : State) (ps : List Pelicula) :
      ReachFrom s0 s → ReachFrom s0 { s with peliculas := ps }
  | createStep (s0 s : State) (body : CreateTurnoBody) (ahora : Int) (t : Turno)
      (s' : State) :
      ReachFrom s0 s → createTurno s body ahora = .ok (t, s') → ReachFrom s0 s'
  | updateStep (s0 s : State) (id : Nat) (body : UpdateTurnoBody) (ahora : Int)
      (t : Turno) (s' : State) :
      ReachFrom s0 s → updateTurno s id body ahora = .ok (t, s') → ReachFrom s0 s'
  | deleteStep (s0 s : State) (id : Nat) (ahora : Int) (s' : State) :
      ReachFrom s0 s → deleteTurno s id ahora = .ok s' → ReachFrom s0 s'
  | batchStep (s0 s : State) (items : List BatchTurnoItem) (ahora : Int)
      (r : BatchAcc) :
      ReachFrom s0 s → createMultipleTurnos s items ahora = .ok r → ReachFrom s0 r.state

/-- Every stored row is a nonempty interval (`inicio < fin`). -/
def wfTurnos (ts : List Turno) : Prop := ∀ t ∈ ts, t.inicio < t.fin

/-- No two rows with distinct ids and the same `sala` have intersecting
`tstzrange` values — the property the exclusion constraint maintains,
over all rows whatever their status. -/
def noDbOverlap (ts : List Turno) : Prop :=
  ∀ a ∈ ts, ∀ b ∈ ts, a.id ≠ b.id → a.sala = b.sala →
    tstzrangeIntersects a.inicio a.fin b.inicio b.fin = false

/-- The inductive invariant of the turno table: well-formed ranges, pairwise
non-intersection, unique row ids bounded by the id sequence counter. -/
def InvRows (ts : List Turno) (nid : Nat) : Prop :=
  wfTurnos ts ∧ noDbOverlap ts ∧
  (∀ a ∈ ts, ∀ b ∈ ts, a.id = b.id → a = b) ∧ (∀ t ∈ ts, t.id < nid)

/-- The inductive invariant of the turno store. -/
def Inv (s : State) : Prop := InvRows s.turnos s.nextId

/-! Concrete data used by the closed theorems and witnesses below.
Timestamps are milliseconds; a 90-minute pelicula needs 105-minute slots
(6300000 ms). -/

/-- A pelicula of 90 minutes, not soft-deleted. -/
def peliculaNoventa : Pelicula := { id := 0, duracionMin := 90, eliminadoEn := none }

/-- Initial state: one pelicula, empty `turnos` table. -/
def sInicial : State := { peliculas := [peliculaNoventa], turnos := [], nextId := 0 }

/-- Create request: sala "A1" starting at instant 0. -/
def bodyUno : CreateTurnoBody :=
  { peliculaId := 0, sala := "A1", inicio := 0, fin := none, estado := none }

/-- The row `createTurno sInicial bodyUno 0` persists. -/
def turnoUno : Turno :=
  { id := 0, peliculaId := 0, sala := "A1", inicio := 0, fin := 6300000,
    estado := .ACTIVO, eliminadoEn := none }

/-- State after the first create. -/
def sUno : State := { peliculas := [peliculaNoventa], turnos := [turnoUno], nextId := 1 }

/-- Second create request: sala "A1" starting where `turnoUno` ends. -/
def bodyDos : CreateTurnoBody :=
  { peliculaId := 0, sala := "A1", inicio := 6300000, fin := none, estado := none }

/-- The row the second create persists. -/
def turnoDos : Turno :=
  { id := 1, peliculaId := 0, sala := "A1", inicio := 6300000, fin := 12600000,
    estado := .ACTIVO, eliminadoEn := none }

/-- State after both creates. -/
def sDos : State := { peliculas := [peliculaNoventa], turnos := [turnoDos, turnoUno], nextId := 2 }

/-- `turnoUno` after `deleteTurno sUno 0 100`: soft-deleted and cancelled. -/
def turnoCancelado : Turno :=
  { id := 0, peliculaId := 0, sala := "A1", inicio := 0, fin := 6300000,
    estado := .CANCELADO, eliminadoEn := some 100 }

/-- State after creating `turnoUno` and then soft-deleting it. -/
def sCancelado : State := { peliculas := [peliculaNoventa], turnos := [turnoCancelado], nextId := 1 }

/-- Create request for the spec's example: start 10:00 (= 36000000 ms from
midnight), caller-supplied end 12:00 (= 43200000 ms). -/
def bodyDiezADoce : CreateTurnoBody :=
  { peliculaId := 0, sala := "A1", inicio := 36000000, fin := some 43200000, estado := none }

/-- A row occupying sala "A2" over `[0, 6300000)`. -/
def turnoSalaA2 : Turno :=
  { id := 1, peliculaId := 0, sala := "A2", inicio := 0, fin := 6300000,
    estado := .ACTIVO, eliminadoEn := none }

/-- State with `turnoUno` in "A1" and `turnoSalaA2` in "A2", both active. -/
def sDosSalas : State :=
  { peliculas := [peliculaNoventa], turnos := [turnoUno, turnoSalaA2], nextId := 2 }

/-- Update patch that changes only the room, to the occupied "A2". -/
def patchSoloSala : UpdateTurnoBody :=
  { sala := some "A2", inicio := none, fin := none, estado := none }

/-- Update patch that changes only the room, to the free "A3". -/
def patchSalaLibre : UpdateTurnoBody :=
  { sala := some "A3", inicio := none, fin := none, estado := none }

/-- The 3-item bulk request of the spec's batch scenario: item 2 overlaps
item 1 in sala "A1"; item 3 uses the unrelated sala "B1". -/
def loteTres : List BatchTurnoItem :=
  [ { peliculaId := 0, sala := "A1", inicio := some 0, fin := some 6300000,
      estado := none, eliminadoEn := none },
    { peliculaId := 0, sala := "A1", inicio := some 1800000, fin := some 8100000,
      estado := none, eliminadoEn := none },
    { peliculaId := 0, sala := "B1", inicio := some 0, fin := some 6300000,
      estado := none, eliminadoEn := none } ]

/-- The row item 3 of `loteTres` persists. -/
def turnoSalaB1 : Turno :=
  { id := 1, peliculaId := 0, sala := "B1", inicio := 0, fin := 6300000,
    estado := .ACTIVO, eliminadoEn := none }

/-- The row `createTurno sInicial bodyDiezADoce 0` persists: end 11:45
(42300000 ms), not the caller's 12:00. -/
def turnoDiez : Turno :=
  { id := 0, peliculaId := 0, sala := "A1", inicio := 36000000, fin := 42300000,
    estado := .ACTIVO, eliminadoEn := none }

/-- State after creating `turnoDiez`. -/
def sDiez : State := { peliculas := [peliculaNoventa], turnos := [turnoDiez], nextId := 1 }

/-- Update patch moving a turno to "A2" re-sending only its start: `fin` is
absent, so the controller validates against the existing row's `fin`. -/
def patchInicioSolo : UpdateTurnoBody :=
  { sala := some "A2", inicio := some (some 0), fin := none, estado := none }

/-- Create request: sala "B1" starting at instant 0. -/
def bodyB1 : CreateTurnoBody :=
  { peliculaId := 0, sala := "B1", inicio := 0, fin := none, estado := none }

/-- State after create in "A1", soft delete, then a create in "B1": the
soft-deleted row is still stored, untouched. -/
def sTrasBorrado : State :=
  { peliculas := [peliculaNoventa], turnos := [turnoSalaB1, turnoCancelado], nextId := 2 }

/-- The soft-delete markers written by `deleteTurno` for the row `id0` at
instant `ahora`: the id is already allocated (below the sequence counter),
and every stored row carrying that id has both markers set. -/
def marcadoEliminado (id0 : Nat) (ahora : Int) (ts : List Turno) (nid : Nat) : Prop :=
  id0 < nid ∧
  ∀ t ∈ ts, t.id = id0 → t.eliminadoEn = some ahora ∧ t.estado = Estado.CANCELADO

/-! Helper lemmas about the embedded operations. -/

theorem valido_some_of_valido {inicio fin : Option Int} {dur ahora : Int}
    (h : (validateTurnoDuration inicio fin dur ahora).valido = true) :
    ∃ i f, inicio = some i ∧ fin = some f := by
  cases inicio with
  | none => simp [validateTurnoDuration, DurationResult.valido] at h
  | some i =>
    cases fin with
    | none => simp [validateTurnoDuration, DurationResult.valido] at h
    | some f => exact ⟨i, f, rfl, rfl⟩

theorem lt_of_valido {i f : Int} {dur ahora : Int}
    (h : (validateTurnoDuration (some i) (some f) dur ahora).valido = true) :
    i < f := by
  by_contra hc
  simp [validateTurnoDuration, DurationResult.valido, show f ≤ i by omega] at h

theorem exclusionAllows_iff (t : Turno) (rows : List Turno) :
    exclusionAllows t rows = true ↔
    ∀ o ∈ rows, o.sala = t.sala →
      tstzrangeIntersects t.inicio t.fin o.inicio o.fin = false := by
  unfold exclusionAllows
  rw [List.all_eq_true]
  constructor
  · intro h o ho hsala
    have := h o ho
    simp [hsala] at this
    exact this
  · intro h o ho
    by_cases hs : o.sala = t.sala
    · simp [hs, h o ho hs]
    · simp [hs]

theorem tstzrangeIntersects_symm (a b c d : Int) :
    tstzrangeIntersects a b c d = tstzrangeIntersects c d a b := by
  unfold tstzrangeIntersects
  rw [decide_eq_decide]
  omega

theorem tstzrangeIntersects_eq_false_iff {s1 e1 s2 e2 : Int}
    (h1 : s1 < e1) (h2 : s2 < e2) :
    tstzrangeIntersects s1 e1 s2 e2 = false ↔ ¬ (s1 < e2 ∧ s2 < e1) := by
  unfold tstzrangeIntersects
  rw [decide_eq_false_iff_not]
  constructor <;> intro h <;> omega

theorem findTurnoVivo_spec {s : State} {id : Nat} {t : Turno}
    (h : findTurnoVivo s id = some t) :
    t ∈ s.turnos ∧ t.id = id ∧ t.eliminadoEn = none := by
  unfold findTurnoVivo at h
  have hm := List.mem_of_find?_eq_some h
  have hp := List.find?_some h
  simp only [Bool.and_eq_true, decide_eq_true_eq] at hp
  exact ⟨hm, hp.1, hp.2⟩

theorem dbCreateTurno_ok_shape {s : State} {d : TurnoData} {t : Turno} {s' : State}
    (h : dbCreateTurno s d = .ok (t, s')) :
    t = { id := s.nextId, peliculaId := d.peliculaId, sala := d.sala, inicio := d.inicio,
          fin := d.fin, estado := d.estado, eliminadoEn := d.eliminadoEn } ∧
    s' = { s with turnos := t :: s.turnos, nextId := s.nextId + 1 } ∧
    exclusionAllows t s.turnos = true := by
  simp only [dbCreateTurno] at h
  split at h
  case isTrue hall =>
    simp only [Except.ok.injEq, Prod.mk.injEq] at h
    obtain ⟨ht, hs⟩ := h
    subst ht
    exact ⟨rfl, hs.symm, hall⟩
  case isFalse => simp at h

theorem dbUpdateTurno_ok_shape {s : State} {id : Nat} {t' : Turno} {s' : State}
    (h : dbUpdateTurno s id t' = .ok s') :
    s' = { s with turnos := t' :: s.turnos.filter (fun o => decide (¬ o.id = id)) } ∧
    exclusionAllows t' (s.turnos.filter (fun o => decide (¬ o.id = id))) = true := by
  simp only [dbUpdateTurno] at h
  split at h
  case isTrue hall =>
    simp only [Except.ok.injEq] at h
    exact ⟨h.symm, hall⟩
  case isFalse => simp at h

/-- Adding a fresh row admitted by the exclusion constraint preserves the
pairwise non-intersection property. -/
theorem consRow_noDbOverlap {rows : List Turno} {t : Turno}
    (hN : noDbOverlap rows) (hfresh : ∀ o ∈ rows, o.id ≠ t.id)
    (hall : exclusionAllows t rows = true) :
    noDbOverlap (t :: rows) := by
  have hallIff := (exclusionAllows_iff t rows).mp hall
  intro a ha b hb hidab hsala
  rw [List.mem_cons] at ha hb
  rcases ha with rfl | ha <;> rcases hb with rfl | hb
  · exact absurd rfl hidab
  · exact hallIff b hb hsala.symm
  · rw [tstzrangeIntersects_symm]
    exact hallIff a ha hsala
  · exact hN a ha b hb hidab hsala

/-- Adding a fresh row admitted by the exclusion constraint preserves the
store invariant. -/
theorem consRow_inv {rows : List Turno} {nid : Nat} {t : Turno}
    (hInv : InvRows rows nid) (hwf : t.inicio < t.fin) (hid : t.id = nid)
    (hall : exclusionAllows t rows = true) :
    InvRows (t :: rows) (nid + 1) := by
  obtain ⟨hW, hN, hU, hB⟩ := hInv
  have hfresh : ∀ o ∈ rows, o.id ≠ t.id := by
    intro o ho
    have := hB o ho
    omega
  refine ⟨?_, consRow_noDbOverlap hN hfresh hall, ?_, ?_⟩
  · intro x hx
    rw [List.mem_cons] at hx
    rcases hx with rfl | hx
    · exact hwf
    · exact hW x hx
  · intro a ha b hb hab
    rw [List.mem_cons] at ha hb
    rcases ha with rfl | ha <;> rcases hb with rfl | hb
    · rfl
    · exact absurd hab.symm (hfresh b hb)
    · exact absurd hab (hfresh a ha)
    · exact hU a ha b hb hab
  · intro x hx
    rw [List.mem_cons] at hx
    rcases hx with rfl | hx
    · omega
    · have := hB x hx
      omega

/-- Replacing the row with a given id by a row admitted by the exclusion
constraint (against the other rows) preserves the store invariant. -/
theorem replaceRow_inv {rows : List Turno} {nid : Nat} {id : Nat} {t0 t' : Turno}
    (hInv : InvRows rows nid) (hmem : t0 ∈ rows) (hid0 : t0.id = id) (hidt : t'.id = id)
    (hwf : t'.inicio < t'.fin)
    (hall : exclusionAllows t' (rows.filter (fun o => decide (¬ o.id = id))) = true) :
    InvRows (t' :: rows.filter (fun o => decide (¬ o.id = id))) nid := by
  obtain ⟨hW, hN, hU, hB⟩ := hInv
  have hsub : ∀ o ∈ rows.filter (fun o => decide (¬ o.id = id)),
      o ∈ rows ∧ o.id ≠ id := by
    intro o ho
    have := List.mem_filter.mp ho
    simpa using this
  have hfresh : ∀ o ∈ rows.filter (fun o => decide (¬ o.id = id)), o.id ≠ t'.id := by
    intro o ho
    rw [hidt]
    exact (hsub o ho).2
  have hNsub : noDbOverlap (rows.filter (fun o => decide (¬ o.id = id))) := by
    intro a ha b hb hidab hsala
    exact hN a (hsub a ha).1 b (hsub b hb).1 hidab hsala
  refine ⟨?_, consRow_noDbOverlap hNsub hfresh hall, ?_, ?_⟩
  · intro x hx
    rw [List.mem_cons] at hx
    rcases hx with rfl | hx
    · exact hwf
    · exact hW x (hsub x hx).1
  · intro a ha b hb hab
    rw [List.mem_cons] at ha hb
    rcases ha with rfl | ha <;> rcases hb with rfl | hb
    · rfl
    · exact absurd hab.symm (hfresh b hb)
    · exact absurd hab (hfresh a ha)
    · exact hU a (hsub a ha).1 b (hsub b hb).1 hab
  · intro x hx
    rw [List.mem_cons] at hx
    rcases hx with rfl | hx
    · rw [hidt, ← hid0]
      exact hB t0 hmem
    · exact hB x (hsub x hx).1

/-- Characterization of a successful `createTurno`: the parent was found,
duration and overlap validation passed on the derived `fin`, and the
persisted row is the fully system-derived one. -/
theorem createTurno_ok_shape {s : State} {body : CreateTurnoBody} {ahora : Int}
    {t : Turno} {s' : State} (h : createTurno s body ahora = .ok (t, s')) :
    ∃ p, findPelicula s body.peliculaId = some p ∧
      (validateTurnoDuration (some body.inicio)
          (some (body.inicio + (p.duracionMin + 15) * 60000)) p.duracionMin ahora).valido
        = true ∧
      (validateTurnoOverlap s.turnos body.sala body.inicio
          (body.inicio + (p.duracionMin + 15) * 60000) none).isEmpty = true ∧
      t = { id := s.nextId, peliculaId := body.peliculaId, sala := body.sala,
            inicio := body.inicio, fin := body.inicio + (p.duracionMin + 15) * 60000,
            estado := body.estado.getD .ACTIVO, eliminadoEn := none } ∧
      s' = { s with turnos := t :: s.turnos, nextId := s.nextId + 1 } ∧
      exclusionAllows t s.turnos = true := by
  simp only [createTurno] at h
  split at h
  case h_1 => simp at h
  case h_2 pelicula hp =>
    split at h
    case isFalse => simp at h
    case isTrue hval =>
      split at h
      case isFalse => simp at h
      case isTrue hempty =>
        split at h
        case h_2 => simp at h
        case h_1 r heq =>
          simp only [Except.ok.injEq] at h
          subst h
          obtain ⟨ht, hs, hall⟩ := dbCreateTurno_ok_shape heq
          exact ⟨pelicula, hp, hval, hempty, ht, hs, hall⟩

/-- A successful `createTurno` preserves the store invariant. -/
theorem createTurno_inv {s : State} {body : CreateTurnoBody} {ahora : Int}
    {t : Turno} {s' : State} (hInv : Inv s)
    (h : createTurno s body ahora = .ok (t, s')) : Inv s' := by
  obtain ⟨p, hp, hval, hempty, ht, hs', hall⟩ := createTurno_ok_shape h
  rw [hs']
  have hwf : t.inicio < t.fin := by
    rw [ht]
    simpa using lt_of_valido hval
  have hid : t.id = s.nextId := by rw [ht]
  exact consRow_inv hInv hwf hid hall

/-- Characterization of a successful `updateTurno`: the live row was found;
the written row keeps its id, parent and soft-delete marker; its range is
validated anew (when `inicio`/`fin` was patched) or unchanged; and the write
passed the exclusion constraint against the other rows. -/
theorem updateTurno_ok_shape {s : State} {id : Nat} {body : UpdateTurnoBody}
    {ahora : Int} {t : Turno} {s' : State}
    (h : updateTurno s id body ahora = .ok (t, s')) :
    ∃ t0, findTurnoVivo s id = some t0 ∧
      t.id = t0.id ∧ t.peliculaId = t0.peliculaId ∧ t.eliminadoEn = t0.eliminadoEn ∧
      (t.inicio < t.fin ∨ (t.inicio = t0.inicio ∧ t.fin = t0.fin)) ∧
      s' = { s with turnos := t :: s.turnos.filter (fun o => decide (¬ o.id = id)) } ∧
      exclusionAllows t (s.turnos.filter (fun o => decide (¬ o.id = id))) = true := by
  simp only [updateTurno] at h
  split at h
  case h_1 => simp at h
  case h_2 turnoExistente hfind =>
    split at h
    case isTrue hsome =>
      split at h
      case h_1 => simp at h
      case h_2 pelicula hpel =>
        split at h
        case isFalse => simp at h
        case isTrue hval =>
          split at h
          case h_2 => simp at h
          case h_1 i f hi hf =>
            split at h
            case isFalse => simp at h
            case isTrue hempty =>
              split at h
              case h_2 => simp at h
              case h_1 s'' hdb =>
                simp only [Except.ok.injEq, Prod.mk.injEq] at h
                obtain ⟨ht, hs⟩ := h
                subst hs
                subst ht
                obtain ⟨hs', hall⟩ := dbUpdateTurno_ok_shape hdb
                rw [hi, hf] at hval
                exact ⟨turnoExistente, hfind, rfl, rfl, rfl,
                  Or.inl (lt_of_valido hval), hs', hall⟩
    case isFalse =>
      split at h
      case h_2 => simp at h
      case h_1 s'' hdb =>
        simp only [Except.ok.injEq, Prod.mk.injEq] at h
        obtain ⟨ht, hs⟩ := h
        subst hs
        subst ht
        obtain ⟨hs', hall⟩ := dbUpdateTurno_ok_shape hdb
        exact ⟨turnoExistente, hfind, rfl, rfl, rfl, Or.inr ⟨rfl, rfl⟩, hs', hall⟩

/-- A successful `updateTurno` preserves the store invariant. -/
theorem updateTurno_inv {s : State} {id : Nat} {body : UpdateTurnoBody}
    {ahora : Int} {t : Turno} {s' : State} (hInv : Inv s)
    (h : updateTurno s id body ahora = .ok (t, s')) : Inv s' := by
  obtain ⟨t0, hfind, hidEq, _, _, hwfd, hs', hall⟩ := updateTurno_ok_shape h
  obtain ⟨hmem, hid0, _⟩ := findTurnoVivo_spec hfind
  rw [hs']
  have hwf : t.inicio < t.fin := by
    rcases hwfd with hlt | ⟨h1, h2⟩
    · exact hlt
    · rw [h1, h2]
      exact hInv.1 t0 hmem
  exact replaceRow_inv hInv hmem hid0 (hidEq.trans hid0) hwf hall

/-- Characterization of a successful `deleteTurno`: the live row was found
and rewritten with both soft-delete markers set, in one update. -/
theorem deleteTurno_ok_shape {s : State} {id : Nat} {ahora : Int} {s' : State}
    (h : deleteTurno s id ahora = .ok s') :
    ∃ t0, findTurnoVivo s id = some t0 ∧
      s' = { s with turnos :=
        ({ t0 with eliminadoEn := some ahora, estado := Estado.CANCELADO }) ::
          s.turnos.filter (fun o => decide (¬ o.id = id)) } ∧
      exclusionAllows ({ t0 with eliminadoEn := some ahora, estado := Estado.CANCELADO })
        (s.turnos.filter (fun o => decide (¬ o.id = id))) = true := by
  simp only [deleteTurno] at h
  split at h
  case h_1 => simp at h
  case h_2 turno hfind =>
    split at h
    case h_2 => simp at h
    case h_1 s'' hdb =>
      simp only [Except.ok.injEq] at h
      subst h
      obtain ⟨hs', hall⟩ := dbUpdateTurno_ok_shape hdb
      exact ⟨turno, hfind, hs', hall⟩

/-- A successful `deleteTurno` preserves the store invariant. -/
theorem deleteTurno_inv {s : State} {id : Nat} {ahora : Int} {s' : State}
    (hInv : Inv s) (h : deleteTurno s id ahora = .ok s') : Inv s' := by
  obtain ⟨t0, hfind, hs', hall⟩ := deleteTurno_ok_shape h
  obtain ⟨hmem, hid0, _⟩ := findTurnoVivo_spec hfind
  rw [hs']
  exact replaceRow_inv hInv hmem hid0 (by simpa using hid0) (hInv.1 t0 hmem) hall

/-- `processTurnoItem` either leaves the store untouched (any failure) or
performs exactly the guarded insert of a duration-validated row. -/
theorem processTurnoItem_state_shape (ahora : Int) (acc : BatchAcc)
    (it : BatchTurnoItem) (idx : Nat) :
    (processTurnoItem ahora acc it idx).state = acc.state ∨
    ∃ i f t, it.inicio = some i ∧ it.fin = some f ∧ i < f ∧
      dbCreateTurno acc.state
        { peliculaId := it.peliculaId, sala := it.sala, inicio := i, fin := f,
          estado := it.estado.getD .ACTIVO, eliminadoEn := it.eliminadoEn }
        = .ok (t, (processTurnoItem ahora acc it idx).state) := by
  simp only [processTurnoItem]
  split
  case h_1 => left; rfl
  case h_2 pelicula hp =>
    split
    case isFalse => left; rfl
    case isTrue hval =>
      split
      case h_2 => left; rfl
      case h_1 i f hi hf =>
        split
        case isFalse => left; rfl
        case isTrue hempty =>
          split
          case h_2 => left; rfl
          case h_1 t s' hdb =>
            right
            rw [hi, hf] at hval
            exact ⟨i, f, t, hi, hf, lt_of_valido hval, hdb⟩

/-- `processTurnoItem` preserves the store invariant. -/
theorem processTurnoItem_inv {ahora : Int} {acc : BatchAcc} {it : BatchTurnoItem}
    {idx : Nat} (hInv : Inv acc.state) : Inv (processTurnoItem ahora acc it idx).state := by
  rcases processTurnoItem_state_shape ahora acc it idx with heq | ⟨i, f, t, hi, hf, hwf, hdb⟩
  · rw [heq]; exact hInv
  · obtain ⟨ht, hs, hall⟩ := dbCreateTurno_ok_shape hdb
    rw [hs]
    have hid : t.id = acc.state.nextId := by rw [ht]
    have hwf' : t.inicio < t.fin := by
      rw [ht]
      simpa using hwf
    exact consRow_inv hInv hwf' hid hall

/-- The sequential bulk loop preserves the store invariant. -/
theorem runBatchAux_inv (ahora : Int) :
    ∀ (items : List BatchTurnoItem) (acc : BatchAcc) (i : Nat),
      Inv acc.state → Inv (runBatchAux ahora acc items i).state := by
  intro items
  induction items with
  | nil => intro acc i h; exact h
  | cons it rest ih =>
    intro acc i h
    simp only [runBatchAux]
    exact ih (processTurnoItem ahora acc it i) (i + 1) (processTurnoItem_inv h)

/-- Characterization of a successful `createMultipleTurnos`. -/
theorem createMultipleTurnos_ok_shape {s : State} {turnos : List BatchTurnoItem}
    {ahora : Int} {r : BatchAcc} (h : createMultipleTurnos s turnos ahora = .ok r) :
    r = runBatchAux ahora ⟨s, [], []⟩ turnos 0 ∧ turnos.length ≠ 0 ∧ turnos.length ≤ 50 := by
  simp only [createMultipleTurnos] at h
  split at h
  case isTrue => simp at h
  case isFalse h0 =>
    split at h
    case isTrue => simp at h
    case isFalse h50 =>
      simp only [Except.ok.injEq] at h
      exact ⟨h.symm, h0, by omega⟩

/-- A successful `createMultipleTurnos` preserves the store invariant. -/
theorem createMultipleTurnos_inv {s : State} {turnos : List BatchTurnoItem}
    {ahora : Int} {r : BatchAcc} (hInv : Inv s)
    (h : createMultipleTurnos s turnos ahora = .ok r) : Inv r.state := by
  obtain ⟨hr, _, _⟩ := createMultipleTurnos_ok_shape h
  rw [hr]
  exact runBatchAux_inv ahora turnos ⟨s, [], []⟩ 0 hInv

/-- Every reachable store satisfies the invariant. -/
theorem reach_inv {s : State} (h : Reach s) : Inv s := by
  induction h with
  | init ps =>
    exact ⟨fun t ht => absurd ht (List.not_mem_nil t),
           fun a ha => absurd ha (List.not_mem_nil a),
           fun a ha => absurd ha (List.not_mem_nil a),
           fun t ht => absurd ht (List.not_mem_nil t)⟩
  | peliculasStep s ps hr ih => exact ih
  | createStep s body ahora t s' hr heq ih => exact createTurno_inv ih heq
  | updateStep s id body ahora t s' hr heq ih => exact updateTurno_inv ih heq
  | deleteStep s id ahora s' hr heq ih => exact deleteTurno_inv ih heq
  | batchStep s items ahora r hr heq ih => exact createMultipleTurnos_inv ih heq

theorem marcado_cons {id0 : Nat} {ahora0 : Int} {rows : List Turno} {nid nid' : Nat}
    {t : Turno} (hm : marcadoEliminado id0 ahora0 rows nid) (hnid : nid ≤ nid')
    (ht : t.id = id0 → t.eliminadoEn = some ahora0 ∧ t.estado = Estado.CANCELADO) :
    marcadoEliminado id0 ahora0 (t :: rows) nid' := by
  obtain ⟨hb, hrows⟩ := hm
  refine ⟨by omega, ?_⟩
  intro x hx hxid
  rw [List.mem_cons] at hx
  rcases hx with rfl | hx
  · exact ht hxid
  · exact hrows x hx hxid

theorem marcado_filter {id0 : Nat} {ahora0 : Int} {rows : List Turno} {nid : Nat}
    (p : Turno → Bool) (hm : marcadoEliminado id0 ahora0 rows nid) :
    marcadoEliminado id0 ahora0 (rows.filter p) nid := by
  obtain ⟨hb, hrows⟩ := hm
  exact ⟨hb, fun x hx hxid => hrows x (List.mem_filter.mp hx).1 hxid⟩

theorem marcado_createTurno {id0 : Nat} {ahora0 : Int} {s : State}
    {body : CreateTurnoBody} {ahora : Int} {t : Turno} {s' : State}
    (hm : marcadoEliminado id0 ahora0 s.turnos s.nextId)
    (h : createTurno s body ahora = .ok (t, s')) :
    marcadoEliminado id0 ahora0 s'.turnos s'.nextId := by
  obtain ⟨p, hp, hval, hempty, ht, hs', hall⟩ := createTurno_ok_shape h
  rw [hs']
  refine marcado_cons hm (Nat.le_succ _) ?_
  intro hxid
  exfalso
  rw [ht] at hxid
  have hx2 : s.nextId = id0 := hxid
  have hb := hm.1
  omega

theorem marcado_updateTurno {id0 : Nat} {ahora0 : Int} {s : State} {id : Nat}
    {body : UpdateTurnoBody} {ahora : Int} {t : Turno} {s' : State}
    (hm : marcadoEliminado id0 ahora0 s.turnos s.nextId)
    (h : updateTurno s id body ahora = .ok (t, s')) :
    marcadoEliminado id0 ahora0 s'.turnos s'.nextId := by
  obtain ⟨t0, hfind, hidEq, _, _, _, hs', _⟩ := updateTurno_ok_shape h
  obtain ⟨hmem, hid0, h0del⟩ := findTurnoVivo_spec hfind
  rw [hs']
  refine marcado_cons (marcado_filter _ hm) (le_refl _) ?_
  intro hxid
  exfalso
  rw [hidEq] at hxid
  have hmk := hm.2 t0 hmem hxid
  rw [h0del] at hmk
  exact Option.noConfusion hmk.1

theorem marcado_deleteTurno {id0 : Nat} {ahora0 : Int} {s : State} {id : Nat}
    {ahora : Int} {s' : State}
    (hm : marcadoEliminado id0 ahora0 s.turnos s.nextId)
    (h : deleteTurno s id ahora = .ok s') :
    marcadoEliminado id0 ahora0 s'.turnos s'.nextId := by
  obtain ⟨t0, hfind, hs', _⟩ := deleteTurno_ok_shape h
  obtain ⟨hmem, hid0, h0del⟩ := findTurnoVivo_spec hfind
  rw [hs']
  refine marcado_cons (marcado_filter _ hm) (le_refl _) ?_
  intro hxid
  exfalso
  have hx2 : t0.id = id0 := hxid
  have hmk := hm.2 t0 hmem hx2
  rw [h0del] at hmk
  exact Option.noConfusion hmk.1

theorem marcado_processTurnoItem {id0 : Nat} {ahora0 : Int} {ahora : Int}
    {acc : BatchAcc} {it : BatchTurnoItem} {idx : Nat}
    (hm : marcadoEliminado id0 ahora0 acc.state.turnos acc.state.nextId) :
    marcadoEliminado id0 ahora0 (processTurnoItem ahora acc it idx).state.turnos
      (processTurnoItem ahora acc it idx).state.nextId := by
  rcases processTurnoItem_state_shape ahora acc it idx with heq | ⟨i, f, t, hi, hf, hwf, hdb⟩
  · rw [heq]; exact hm
  · obtain ⟨ht, hs, hall⟩ := dbCreateTurno_ok_shape hdb
    rw [hs]
    refine marcado_cons hm (Nat.le_succ _) ?_
    intro hxid
    exfalso
    rw [ht] at hxid
    have hx2 : acc.state.nextId = id0 := hxid
    have hb := hm.1
    omega

theorem marcado_runBatchAux (id0 : Nat) (ahora0 ahora : Int) :
    ∀ (items : List BatchTurnoItem) (acc : BatchAcc) (i : Nat),
      marcadoEliminado id0 ahora0 acc.state.turnos acc.state.nextId →
      marcadoEliminado id0 ahora0 (runBatchAux ahora acc items i).state.turnos
        (runBatchAux ahora acc items i).state.nextId := by
  intro items
  induction items with
  | nil => intro acc i h; exact h
  | cons it rest ih =>
    intro acc i h
    simp only [runBatchAux]
    exact ih (processTurnoItem ahora acc it i) (i + 1) (marcado_processTurnoItem h)

theorem marcado_createMultipleTurnos {id0 : Nat} {ahora0 : Int} {s : State}
    {items : List BatchTurnoItem} {ahora : Int} {r : BatchAcc}
    (hm : marcadoEliminado id0 ahora0 s.turnos s.nextId)
    (h : createMultipleTurnos s items ahora = .ok r) :
    marcadoEliminado id0 ahora0 r.state.turnos r.state.nextId := by
  obtain ⟨hr, _, _⟩ := createMultipleTurnos_ok_shape h
  rw [hr]
  exact marcado_runBatchAux id0 ahora0 ahora items ⟨s, [], []⟩ 0 hm

/-- Once both soft-delete markers are set on a row id, no later operation
sequence can decouple them: the row is invisible to update/delete lookups
and all new rows get fresh ids. -/
theorem reachFrom_marcado {id0 : Nat} {ahora0 : Int} {s0 s : State}
    (h : ReachFrom s0 s) (hm : marcadoEliminado id0 ahora0 s0.turnos s0.nextId) :
    marcadoEliminado id0 ahora0 s.turnos s.nextId := by
  induction h with
  | refl => exact hm
  | peliculasStep s ps hr ih => exact ih
  | createStep s body ahora t s' hr heq ih => exact marcado_createTurno ih heq
  | updateStep s id body ahora t s' hr heq ih => exact marcado_updateTurno ih heq
  | deleteStep s id ahora s' hr heq ih => exact marcado_deleteTurno ih heq
  | batchStep s items ahora r hr heq ih => exact marcado_createMultipleTurnos ih heq

/-- A successful `deleteTurno` establishes both markers for its row id, in
its single update. -/
theorem deleteTurno_marcado {s : State} {id : Nat} {ahora : Int} {s' : State}
    (hInv : Inv s) (h : deleteTurno s id ahora = .ok s') :
    marcadoEliminado id ahora s'.turnos s'.nextId := by
  obtain ⟨t0, hfind, hs', _⟩ := deleteTurno_ok_shape h
  obtain ⟨hmem, hid0, _⟩ := findTurnoVivo_spec hfind
  rw [hs']
  have hb : id < s.nextId := by
    rw [← hid0]
    exact hInv.2.2.2 t0 hmem
  have hfiltro : marcadoEliminado id ahora
      (s.turnos.filter (fun o => decide (¬ o.id = id))) s.nextId := by
    refine ⟨hb, ?_⟩
    intro x hx hxid
    exfalso
    have hxf := List.mem_filter.mp hx
    simp only [decide_eq_true_eq] at hxf
    exact hxf.2 hxid
  exact marcado_cons hfiltro (le_refl _) (fun _ => ⟨rfl, rfl⟩)

/-- C2: for candidates `[s1,e1)` and existing rows `[s2,e2)` with `s1 < e1`
and `s2 < e2`, the four-case disjunction of `validateTurnoOverlap`'s query
holds iff the single half-open intersection predicate `s1 < e2 AND s2 < e1`
holds. -/
theorem c2_four_case_equiv (s1 e1 s2 e2 : Int) (h1 : s1 < e1) (h2 : s2 < e2) :
    fourCaseOverlap s2 e2 s1 e1 = true ↔ overlapSpec s1 e1 s2 e2 := by
  simp only [fourCaseOverlap, overlapSpec, Bool.or_eq_true, Bool.and_eq_true,
    decide_eq_true_eq]
  omega

/-- Witness for C2 at the concrete ranges `[0,2)` and `[1,3)`. -/
theorem c2_four_case_equiv_witness :
    ((0 : Int) < 2 ∧ (1 : Int) < 3) ∧
    (fourCaseOverlap 1 3 0 2 = true ↔ overlapSpec 0 2 1 3) :=
  ⟨⟨by decide, by decide⟩, c2_four_case_equiv 0 2 1 3 (by decide) (by decide)⟩

/-- C6: `validateTurnoDuration` reports the first failing rule in the fixed
order ill-formed dates, `fin <= inicio` (`INVALID_RANGE`), `inicio < ahora`
(`IN_THE_PAST`), too short against `duracionPeliculaMin + 15` (`TOO_SHORT`,
carrying the actual and required minutes), over 240 minutes (`TOO_LONG`),
and is valid iff no rule fails. -/
theorem c6_duration_validator_order (duracionPeliculaMin ahora : Int) :
    (∀ oi of : Option Int,
      validateTurnoDuration oi of duracionPeliculaMin ahora = .invalidDates ↔
        oi = none ∨ of = none) ∧
    (∀ i f : Int,
      (validateTurnoDuration (some i) (some f) duracionPeliculaMin ahora = .invalidRange ↔
        f ≤ i) ∧
      (validateTurnoDuration (some i) (some f) duracionPeliculaMin ahora = .inThePast ↔
        i < f ∧ i < ahora) ∧
      (validateTurnoDuration (some i) (some f) duracionPeliculaMin ahora =
          .tooShort ((f - i) / 60000) (duracionPeliculaMin + 15) ↔
        i < f ∧ ahora ≤ i ∧ (f - i) / 60000 < duracionPeliculaMin + 15) ∧
      (validateTurnoDuration (some i) (some f) duracionPeliculaMin ahora = .tooLong ↔
        i < f ∧ ahora ≤ i ∧ duracionPeliculaMin + 15 ≤ (f - i) / 60000 ∧
          240 < (f - i) / 60000) ∧
      (validateTurnoDuration (some i) (some f) duracionPeliculaMin ahora = .ok ↔
        i < f ∧ ahora ≤ i ∧ duracionPeliculaMin + 15 ≤ (f - i) / 60000 ∧
          (f - i) / 60000 ≤ 240)) := by
  constructor
  · intro oi of
    cases oi <;> cases of <;> simp [validateTurnoDuration] <;> split_ifs <;> simp
  · intro i f
    refine ⟨?_, ?_, ?_, ?_, ?_⟩ <;>
      simp only [validateTurnoDuration] <;> split_ifs <;> simp_all <;> try omega

/-- C9 counterexample: `validateTurnoDuration` is not a function of the
caller-supplied contract inputs alone — with identical `(start, end,
referenceDurationMinutes)` the result differs between ambient clock instants
0 and 1, because the validation instant is read inside the function
(`const ahora = new Date()`), not supplied by the caller. -/
theorem c9_pure_function_counterexample :
    validateTurnoDuration (some 0) (some 6000000) 30 0 ≠
    validateTurnoDuration (some 0) (some 6000000) 30 1 := by decide

/-- C9 amended: the Duration Validator is deterministic in `(start, end,
referenceDurationMinutes)` together with the ambient clock instant read
inside the function: equal values of those four inputs give equal results,
and no state is read or written besides that clock. -/
theorem c9_determinism_amended (inicio fin : Option Int) (dur ahora1 ahora2 : Int)
    (h : ahora1 = ahora2) :
    validateTurnoDuration inicio fin dur ahora1 =
    validateTurnoDuration inicio fin dur ahora2 := by rw [h]

/-- Witness for the amended C9 at a concrete input. -/
theorem c9_determinism_amended_witness :
    (0 : Int) = 0 ∧
    validateTurnoDuration (some 0) (some 6000000) 30 0 =
      validateTurnoDuration (some 0) (some 6000000) 30 0 :=
  ⟨rfl, c9_determinism_amended (some 0) (some 6000000) 30 0 0 rfl⟩

/-- C1: in every state reachable by any sequence of create, update, soft
delete (and bulk create) operations from an empty schedule, two distinct
stored intervals of the same room, both `ACTIVO`/`INACTIVO` and not
soft-deleted, have non-intersecting half-open ranges:
`NOT (a.inicio < b.fin AND b.inicio < a.fin)`. -/
theorem c1_mutual_exclusion (s : State) (hs : Reach s) (a : Turno)
    (ha : a ∈ s.turnos) (b : Turno) (hb : b ∈ s.turnos) (hab : a ≠ b)
    (hsala : a.sala = b.sala)
    (hast : a.estado = Estado.ACTIVO ∨ a.estado = Estado.INACTIVO)
    (hbst : b.estado = Estado.ACTIVO ∨ b.estado = Estado.INACTIVO)
    (hael : a.eliminadoEn = none) (hbel : b.eliminadoEn = none) :
    ¬ (a.inicio < b.fin ∧ b.inicio < a.fin) := by
  obtain ⟨hW, hN, hU, hB⟩ := reach_inv hs
  have hid : a.id ≠ b.id := fun hEq => hab (hU a ha b hb hEq)
  have hfalse := hN a ha b hb hid hsala
  exact (tstzrangeIntersects_eq_false_iff (hW a ha) (hW b hb)).mp hfalse

/-- Witness for C1: the state after two back-to-back creates in sala "A1"
is reachable and its two rows do not intersect. -/
theorem c1_mutual_exclusion_witness :
    (turnoUno ≠ turnoDos ∧ turnoUno.sala = turnoDos.sala) ∧
    ¬ (turnoUno.inicio < turnoDos.fin ∧ turnoDos.inicio < turnoUno.fin) :=
  ⟨⟨by decide, rfl⟩,
   c1_mutual_exclusion sDos
    (Reach.createStep sUno bodyDos 0 turnoDos sDos
      (Reach.createStep sInicial bodyUno 0 turnoUno sUno
        (Reach.init [peliculaNoventa]) rfl) rfl)
    turnoUno (by decide) turnoDos (by decide) (by decide) rfl
    (by decide) (by decide) rfl rfl⟩

/-- C3 failing input, evaluated: in `sCancelado` — reachable by a create
followed by a soft delete — every stored row is `CANCELADO` with a set
soft-delete timestamp, the Overlap Detector pre-check reports no conflict
for re-creating the same window, yet the create is rejected 409
`SCHEDULE_CONFLICT` because the migration's exclusion constraint carries no
status/soft-delete filter.  This contradicts the claim that such rows never
cause a write to be rejected as a conflict. -/
theorem c3_cancelled_row_blocks_write :
    Reach sCancelado ∧
    (∀ t ∈ sCancelado.turnos, t.estado = Estado.CANCELADO ∧ t.eliminadoEn ≠ none) ∧
    validateTurnoOverlap sCancelado.turnos "A1" 0 6300000 none = [] ∧
    createTurno sCancelado bodyUno 0 =
      .error { statusCode := 409, code := "SCHEDULE_CONFLICT" } :=
  ⟨Reach.deleteStep sUno 0 100 sCancelado
      (Reach.createStep sInicial bodyUno 0 turnoUno sUno
        (Reach.init [peliculaNoventa]) rfl) rfl,
   by decide, rfl, rfl⟩

/-- C4: every successful create persists `inicio` as sent and `fin` as
`inicio + (duracionMin + 15) minutes` of the parent pelicula, whatever `fin`
the request body carried. -/
theorem c4_end_computed (s : State) (body : CreateTurnoBody) (ahora : Int)
    (p : Pelicula) (t : Turno) (s' : State)
    (hp : findPelicula s body.peliculaId = some p)
    (h : createTurno s body ahora = .ok (t, s')) :
    t.inicio = body.inicio ∧ t.fin = body.inicio + (p.duracionMin + 15) * 60000 := by
  obtain ⟨q, hq, _, _, ht, _, _⟩ := createTurno_ok_shape h
  rw [hp] at hq
  injection hq with hqq
  subst hqq
  rw [ht]
  exact ⟨rfl, rfl⟩

/-- Witness for C4: creating `[10:00, 12:00)` (caller `fin` 12:00) with
parent duration 90 persists `fin` = 11:45 (42300000 ms). -/
theorem c4_end_computed_witness :
    (findPelicula sInicial bodyDiezADoce.peliculaId = some peliculaNoventa ∧
     createTurno sInicial bodyDiezADoce 0 = .ok (turnoDiez, sDiez) ∧
     bodyDiezADoce.fin = some 43200000) ∧
    (turnoDiez.inicio = bodyDiezADoce.inicio ∧
     turnoDiez.fin = bodyDiezADoce.inicio + (peliculaNoventa.duracionMin + 15) * 60000) :=
  ⟨⟨rfl, rfl, rfl⟩,
   c4_end_computed sInicial bodyDiezADoce 0 peliculaNoventa turnoDiez sDiez rfl rfl⟩

/-- C5 counterexample: updating only the room of row id 0 from "A1" into the
occupied "A2" (no `inicio`/`fin` in the patch) does not fail with the 409
`SCHEDULE_CONFLICT` the claim requires: no validation is re-run and the
storage constraint violation surfaces as the generic 500
`INTERNAL_SERVER_ERROR`. -/
theorem c5_room_only_update_counterexample :
    updateTurno sDosSalas 0 patchSoloSala 0 =
      .error { statusCode := 500, code := "INTERNAL_SERVER_ERROR" } ∧
    ({ statusCode := 500, code := "INTERNAL_SERVER_ERROR" } : ApiError) ≠
      { statusCode := 409, code := "SCHEDULE_CONFLICT" } :=
  ⟨rfl, by decide⟩

/-- C5 amended: an update patch without `inicio`/`fin` (a room-only change
included) re-runs no duration or overlap validation — its outcome is decided
solely by the exclusion constraint, succeeding when the new room is free and
failing with the generic 500 error otherwise; only a patch carrying `inicio`
or `fin` re-runs validation, and then a conflict in the (possibly new) room,
checked excluding the row's own id, fails with 409 `SCHEDULE_CONFLICT`. -/
theorem c5_update_validation_amended :
    (∀ (s : State) (id : Nat) (body : UpdateTurnoBody) (ahora : Int) (t0 : Turno),
      findTurnoVivo s id = some t0 → body.inicio = none → body.fin = none →
      updateTurno s id body ahora =
        (if exclusionAllows
            ({ t0 with sala := body.sala.getD t0.sala,
                       estado := body.estado.getD t0.estado })
            (s.turnos.filter (fun o => decide (¬ o.id = id))) then
          .ok (({ t0 with sala := body.sala.getD t0.sala,
                          estado := body.estado.getD t0.estado }),
               { s with turnos :=
                  ({ t0 with sala := body.sala.getD t0.sala,
                             estado := body.estado.getD t0.estado }) ::
                    s.turnos.filter (fun o => decide (¬ o.id = id)) })
        else .error { statusCode := 500, code := "INTERNAL_SERVER_ERROR" })) ∧
    (∀ (s : State) (id : Nat) (body : UpdateTurnoBody) (ahora : Int) (t0 : Turno)
      (p : Pelicula) (i f : Int),
      findTurnoVivo s id = some t0 →
      s.peliculas.find? (fun q => decide (q.id = t0.peliculaId)) = some p →
      (body.inicio.isSome || body.fin.isSome) = true →
      effectiveDate body.inicio t0.inicio = some i →
      effectiveDate body.fin t0.fin = some f →
      (validateTurnoDuration (some i) (some f) p.duracionMin ahora).valido = true →
      (validateTurnoOverlap s.turnos (body.sala.getD t0.sala) i f (some id)).isEmpty = false →
      updateTurno s id body ahora =
        .error { statusCode := 409, code := "SCHEDULE_CONFLICT" }) := by
  constructor
  · intro s id body ahora t0 hfind h1 h2
    simp only [updateTurno, hfind, h1, h2, Option.isSome_none, Bool.or_self,
      Bool.false_eq_true, if_false, dbUpdateTurno]
    split
    case h_1 s' heq =>
      split at heq
      case isTrue hc =>
        simp only [Except.ok.injEq] at heq
        subst heq
        rw [if_pos hc]
      case isFalse hc => simp at heq
    case h_2 a heq =>
      split at heq
      case isTrue hc => simp at heq
      case isFalse hc => rw [if_neg hc]
  · intro s id body ahora t0 p i f hfind hpel hsome hi hf hval hov
    simp only [updateTurno, hfind, hsome, if_true, hpel, hi, hf, hval, hov,
      Bool.false_eq_true, if_false]

/-- Witness for the amended C5: moving row id 0 to the occupied "A2" with
only a new `inicio` in the patch (no `fin`) still triggers both validators —
the overlap pre-check runs against "A2" with the row's own id excluded, on
the patched start and the existing end — and fails 409 `SCHEDULE_CONFLICT`. -/
theorem c5_update_validation_amended_witness :
    (findTurnoVivo sDosSalas 0 = some turnoUno ∧
     sDosSalas.peliculas.find? (fun q => decide (q.id = turnoUno.peliculaId)) =
       some peliculaNoventa ∧
     (patchInicioSolo.inicio.isSome || patchInicioSolo.fin.isSome) = true ∧
     effectiveDate patchInicioSolo.inicio turnoUno.inicio = some 0 ∧
     effectiveDate patchInicioSolo.fin turnoUno.fin = some 6300000 ∧
     (validateTurnoDuration (some 0) (some 6300000) peliculaNoventa.duracionMin 0).valido
       = true ∧
     (validateTurnoOverlap sDosSalas.turnos (patchInicioSolo.sala.getD turnoUno.sala)
        0 6300000 (some 0)).isEmpty = false) ∧
    updateTurno sDosSalas 0 patchInicioSolo 0 =
      .error { statusCode := 409, code := "SCHEDULE_CONFLICT" } :=
  ⟨⟨rfl, rfl, rfl, rfl, rfl, rfl, rfl⟩,
   c5_update_validation_amended.2 sDosSalas 0 patchInicioSolo 0 turnoUno peliculaNoventa
     0 6300000 rfl rfl rfl rfl rfl rfl rfl⟩

/-- C7: once the parent is found and duration validation passes, both
rejection paths of `createTurno` — the Overlap Detector pre-check and the
storage exclusion constraint at insert time — return the identical error
(status 409, code `SCHEDULE_CONFLICT`), so the caller cannot tell from the
error kind which layer caught the conflict. -/
theorem c7_conflict_taxonomy (s : State) (body : CreateTurnoBody) (ahora : Int)
    (p : Pelicula)
    (hp : findPelicula s body.peliculaId = some p)
    (hval : (validateTurnoDuration (some body.inicio)
      (some (body.inicio + (p.duracionMin + 15) * 60000)) p.duracionMin ahora).valido
        = true) :
    ((validateTurnoOverlap s.turnos body.sala body.inicio
        (body.inicio + (p.duracionMin + 15) * 60000) none).isEmpty = false →
      createTurno s body ahora = .error { statusCode := 409, code := "SCHEDULE_CONFLICT" }) ∧
    ((validateTurnoOverlap s.turnos body.sala body.inicio
        (body.inicio + (p.duracionMin + 15) * 60000) none).isEmpty = true →
      exclusionAllows
        { id := s.nextId, peliculaId := body.peliculaId, sala := body.sala,
          inicio := body.inicio, fin := body.inicio + (p.duracionMin + 15) * 60000,
          estado := body.estado.getD .ACTIVO, eliminadoEn := none } s.turnos = false →
      createTurno s body ahora = .error { statusCode := 409, code := "SCHEDULE_CONFLICT" }) := by
  constructor
  · intro hov
    simp only [createTurno, hp, hval, hov, Bool.false_eq_true, if_false, if_true]
  · intro hov hexc
    simp only [createTurno, hp, hval, hov, if_true, dbCreateTurno, hexc,
      Bool.false_eq_true, if_false]

/-- Witness for C7: in `sCancelado` the pre-check passes but the storage
constraint rejects (the C3 situation), and the surfaced error is exactly the
409 `SCHEDULE_CONFLICT` of the pre-check path. -/
theorem c7_conflict_taxonomy_witness :
    (findPelicula sCancelado bodyUno.peliculaId = some peliculaNoventa ∧
     (validateTurnoDuration (some bodyUno.inicio)
        (some (bodyUno.inicio + (peliculaNoventa.duracionMin + 15) * 60000))
        peliculaNoventa.duracionMin 0).valido = true ∧
     (validateTurnoOverlap sCancelado.turnos bodyUno.sala bodyUno.inicio
        (bodyUno.inicio + (peliculaNoventa.duracionMin + 15) * 60000) none).isEmpty = true ∧
     exclusionAllows
       { id := sCancelado.nextId, peliculaId := bodyUno.peliculaId, sala := bodyUno.sala,
         inicio := bodyUno.inicio,
         fin := bodyUno.inicio + (peliculaNoventa.duracionMin + 15) * 60000,
         estado := bodyUno.estado.getD .ACTIVO, eliminadoEn := none }
       sCancelado.turnos = false) ∧
    createTurno sCancelado bodyUno 0 =
      .error { statusCode := 409, code := "SCHEDULE_CONFLICT" } :=
  ⟨⟨rfl, rfl, rfl, rfl⟩,
   (c7_conflict_taxonomy sCancelado bodyUno 0 peliculaNoventa rfl rfl).2 rfl rfl⟩

theorem processTurnoItem_count (ahora : Int) (acc : BatchAcc) (it : BatchTurnoItem)
    (idx : Nat) :
    (processTurnoItem ahora acc it idx).turnosCreados.length +
      (processTurnoItem ahora acc it idx).errores.length =
    acc.turnosCreados.length + acc.errores.length + 1 := by
  simp only [processTurnoItem]
  repeat' split
  all_goals simp [List.length_append]
  all_goals omega

theorem runBatchAux_count (ahora : Int) :
    ∀ (items : List BatchTurnoItem) (acc : BatchAcc) (i : Nat),
      (runBatchAux ahora acc items i).turnosCreados.length +
        (runBatchAux ahora acc items i).errores.length =
      acc.turnosCreados.length + acc.errores.length + items.length := by
  intro items
  induction items with
  | nil => intro acc i; simp [runBatchAux]
  | cons it rest ih =>
    intro acc i
    simp only [runBatchAux]
    rw [ih]
    have h := processTurnoItem_count ahora acc it i
    simp [List.length_cons]
    omega

/-- C8: `createMultipleTurnos` processes a batch sequentially in input
order, recording exactly one outcome (created row or indexed error record)
per item, so a failing item never aborts the batch; in the 3-item scenario
where item 2 overlaps item 1 in the same room and item 3 uses an unrelated
room, items 1 and 3 succeed and exactly item 2 fails, with a schedule
conflict naming the row created from item 1. -/
theorem c8_batch_sequential_isolation :
    (∀ (s : State) (items : List BatchTurnoItem) (ahora : Int),
      match createMultipleTurnos s items ahora with
      | .ok r => r.turnosCreados.length + r.errores.length = items.length
      | .error e =>
          (items.length = 0 ∧ e = { statusCode := 400, code := "INVALID_INPUT" }) ∨
          (items.length > 50 ∧ e = { statusCode := 400, code := "LIMIT_EXCEEDED" })) ∧
    createMultipleTurnos sInicial loteTres 0 =
      .ok { state := { peliculas := [peliculaNoventa], turnos := [turnoSalaB1, turnoUno],
                       nextId := 2 },
            turnosCreados := [turnoUno, turnoSalaB1],
            errores := [{ index := 1, error := .scheduleConflictPrecheck [turnoUno] }] } := by
  constructor
  · intro s items ahora
    by_cases h0 : items.length = 0
    · simp [createMultipleTurnos, h0]
    · by_cases h50 : items.length > 50
      · simp [createMultipleTurnos, h0, h50]
      · simp only [createMultipleTurnos, h0, h50, if_false, ite_false]
        have h2 := runBatchAux_count ahora items ⟨s, [], []⟩ 0
        simpa using h2
  · rfl

/-- C10: a soft delete through `deleteTurno` writes, in its single update,
both `eliminadoEn = some ahora` and `estado = CANCELADO` for its row, and
after any further sequence of operations every stored interval carrying that
row's id still has both markers: the two lifecycle markers of an interval
deleted through `deleteTurno` always move together.  (The guarantee is per
deleted row: the unvalidated bulk route can separately insert fresh rows
whose caller-supplied `eliminadoEn` is set without `CANCELADO`.) -/
theorem c10_soft_delete_markers (s : State) (hs : Reach s) (id : Nat)
    (ahora : Int) (s' : State) (hdel : deleteTurno s id ahora = .ok s')
    (s'' : State) (hr : ReachFrom s' s'') (t : Turno) (ht : t ∈ s''.turnos)
    (hid : t.id = id) :
    t.eliminadoEn = some ahora ∧ t.estado = Estado.CANCELADO :=
  (reachFrom_marcado hr (deleteTurno_marcado (reach_inv hs) hdel)).2 t ht hid

/-- Witness for C10: delete row 0 from the reachable `sUno`, then create a
further turno in "B1"; the soft-deleted row still carries both markers. -/
theorem c10_soft_delete_markers_witness :
    (deleteTurno sUno 0 100 = .ok sCancelado ∧
     turnoCancelado ∈ sTrasBorrado.turnos ∧ turnoCancelado.id = 0) ∧
    (turnoCancelado.eliminadoEn = some 100 ∧ turnoCancelado.estado = Estado.CANCELADO) :=
  ⟨⟨rfl, by decide, rfl⟩,
   c10_soft_delete_markers sUno
     (Reach.createStep sInicial bodyUno 0 turnoUno sUno
       (Reach.init [peliculaNoventa]) rfl)
     0 100 sCancelado rfl sTrasBorrado
     (ReachFrom.createStep sCancelado sCancelado bodyB1 0 turnoSalaB1 sTrasBorrado
       (ReachFrom.refl sCancelado) rfl)
     turnoCancelado (by decide) rfl⟩

end LaSirena

